import Mathlib

/-!
Shallow embedding of the progression / difficulty-scaling core of
BizarreBeastsTreasureQuest, translated from `src/systems/LevelManager.ts`.

Level numbers are natural numbers (the caller contract requires integers ≥ 1).
`floorCount` is an `Int` because the source uses the sentinel `-1` for the
unbounded BEAST MODE floor count.  JS `Math.floor` of the phase-progress
products `((n-10)/15)*5`, `((n-25)/15)*6`, `((n-40)/10)*5` evaluated in IEEE
double arithmetic coincides with the exact rational floor for every integer
`n` in the relevant ranges (checked exhaustively for 1 ≤ n ≤ 59), so the
embedding uses exact natural-number division `(5*(n-10))/15` etc.
-/

namespace TreasureQuest

/-- The closed set of enemy kinds (`EnemyType` in the source). -/
inductive EnemyType where
  | blue
  | yellow
  | green
  | red
deriving DecidableEq, Repr

/-- Modelled from the spec: the `EnemySpawningSystem` component.  Its source
file (`src/systems/EnemySpawningSystem.ts`) is not in the snapshot; only
`LevelManager.ts` imports it.  `LevelManager.getLevelConfig` consumes exactly
two of its functions: `getDifficultyBudget(configLevel, floorNumber)` and
`getSpawnWeights(configLevel)`.  They are kept abstract here, so theorems
about `getLevelConfig` hold for every possible implementation. -/
structure EnemySpawningSystem where
  getDifficultyBudget : Nat → Nat → ℚ
  getSpawnWeights : Nat → EnemyType → ℚ

/-- `LevelConfig` interface from `LevelManager.ts` lines 8-18. -/
structure LevelConfig where
  levelNumber : Nat
  floorCount : Int
  enemyTypes : List String
  collectibleTypes : List String
  worldWidth : Nat
  isEndless : Bool
  difficultyBudgetPerFloor : ℚ
  enemySpawnWeights : EnemyType → ℚ

/-- `private readonly BEAST_MODE_LEVEL = 51`. -/
def BEAST_MODE_LEVEL : Nat := 51

/-- `private readonly MAX_PROGRESSION_LEVEL = 50`. -/
def MAX_PROGRESSION_LEVEL : Nat := 50

/-- `calculateFloorCount` (lines 60-82).  Each phase adds the floor of the
phase-progress product to the phase base; the natural-number divisions agree
exactly with the source's float evaluation on integer inputs (see header). -/
def calculateFloorCount (levelNumber : Nat) : Int :=
  if levelNumber ≥ BEAST_MODE_LEVEL then
    -1
  else if levelNumber ≤ 10 then
    10 + (levelNumber / 5 : Nat)
  else if levelNumber ≤ 25 then
    13 + (((levelNumber - 10) * 5) / 15 : Nat)
  else if levelNumber ≤ 40 then
    19 + (((levelNumber - 25) * 6) / 15 : Nat)
  else
    25 + (((levelNumber - 40) * 5) / 10 : Nat)

/-- `getEnemyTypes` (lines 89-93): every kind, at every level. -/
def getEnemyTypes (_levelNumber : Nat) : List String :=
  ["blue", "yellow", "green", "red"]

/-- `getCollectibleTypes` (lines 115-125).  Note the source adds
`treasureChest` and `invincibilityPendant` to every tier ("for testing"),
and the `≤ 6` and `> 6` tiers return identical lists. -/
def getCollectibleTypes (levelNumber : Nat) : List String :=
  if levelNumber ≤ 2 then
    ["coin", "treasureChest", "invincibilityPendant"]
  else if levelNumber ≤ 3 then
    ["coin", "blueCoin", "treasureChest", "invincibilityPendant"]
  else if levelNumber ≤ 6 then
    ["coin", "blueCoin", "diamond", "freeLife", "invincibilityPendant", "treasureChest"]
  else
    ["coin", "blueCoin", "diamond", "freeLife", "invincibilityPendant", "treasureChest"]

/-- `getWorldWidth` (lines 133-141). -/
def getWorldWidth (levelNumber : Nat) : Nat :=
  if levelNumber < 25 then 24
  else if levelNumber < 50 then 32
  else 40

/-- `getLevelConfig` (lines 32-50): difficulty-derived fields are computed at
`configLevel = min(levelNumber, MAX_PROGRESSION_LEVEL)`; `floorCount` at the
uncapped level; `isEndless` iff `levelNumber ≥ BEAST_MODE_LEVEL`. -/
def getLevelConfig (E : EnemySpawningSystem) (levelNumber : Nat) : LevelConfig :=
  let configLevel := min levelNumber MAX_PROGRESSION_LEVEL
  { levelNumber := levelNumber
    floorCount := calculateFloorCount levelNumber
    enemyTypes := getEnemyTypes configLevel
    collectibleTypes := getCollectibleTypes configLevel
    worldWidth := getWorldWidth configLevel
    isEndless := decide (levelNumber ≥ BEAST_MODE_LEVEL)
    difficultyBudgetPerFloor := E.getDifficultyBudget configLevel 1
    enemySpawnWeights := E.getSpawnWeights configLevel }

/-- All enemy kinds, in the order of the source's weight tables. -/
def allEnemyKinds : List EnemyType :=
  [EnemyType.blue, EnemyType.yellow, EnemyType.green, EnemyType.red]

/-- Modelled from the spec: `EnemySpawningSystem.selectEnemies(budget,
configLevel)` (source file absent).  Per spec §4.2 it "repeatedly draws an
enemy kind according to the weight table (weighted random choice) and accepts
it if its cost does not exceed remaining budget, continuing until no
affordable kind remains or a safety iteration cap is hit".  The randomness
source is injected as the finite list `draws` of weighted random choices,
whose length is the safety iteration cap; `cost` is the implicit per-kind
cost; `configLevel` only shapes the draw distribution, which `draws` already
realizes. -/
def selectEnemies (cost : EnemyType → ℚ) (budget : ℚ) (_configLevel : Nat)
    (draws : List EnemyType) : List EnemyType :=
  match draws with
  | [] => []
  | d :: ds =>
    if allEnemyKinds.all (fun k => decide (budget < cost k)) then
      []
    else if cost d ≤ budget then
      d :: selectEnemies cost (budget - cost d) _configLevel ds
    else
      selectEnemies cost budget _configLevel ds

/-- Total cost consumed by a selected enemy sequence. -/
def totalCost (cost : EnemyType → ℚ) (l : List EnemyType) : ℚ :=
  l.foldr (fun k a => cost k + a) 0

/-- `getEnemyTypesForFloor` (lines 98-106): caps the level, asks the spawning
system for the budget, then for a selection under it.  The cost function and
the draw stream are the model parameters of `selectEnemies`. -/
def getEnemyTypesForFloor (E : EnemySpawningSystem) (cost : EnemyType → ℚ)
    (draws : List EnemyType) (levelNumber floorNumber : Nat) : List EnemyType :=
  let configLevel := min levelNumber MAX_PROGRESSION_LEVEL
  let budget := E.getDifficultyBudget configLevel floorNumber
  selectEnemies cost budget configLevel draws

/-! ### The persistence layer

`localStorage` is modelled as either `unavailable` (every access throws, the
source catches the exception) or `available v` with `v` the string stored
under `bizarreUnderground_furthestLevel` (`none` = key absent, JS `null`).
JS `parseInt` on a decimal string is modelled by `jsParseInt`, returning
`none` for `NaN` (no leading digits); `Number.prototype.toString` on a
natural number by `jsNatToString`. -/

/-- JS whitespace skipped by `parseInt` (space, tab, LF, CR suffice here). -/
def jsWhitespace (c : Char) : Bool :=
  c.toNat = 32 || c.toNat = 9 || c.toNat = 10 || c.toNat = 13

/-- A decimal digit character. -/
def isDigitChar (c : Char) : Bool :=
  48 ≤ c.toNat && c.toNat ≤ 57

/-- Numeric value of a list of digit characters (most significant first). -/
def digitsVal (ds : List Char) : Nat :=
  ds.foldl (fun a c => a * 10 + (c.toNat - 48)) 0

/-- Value of the longest leading digit run; `none` when there is none. -/
def leadingDigits (cs : List Char) : Option Nat :=
  if (cs.takeWhile isDigitChar).isEmpty then none
  else some (digitsVal (cs.takeWhile isDigitChar))

/-- Sign-and-digits stage of `parseInt`, after whitespace removal. -/
def jsParseIntList (cs : List Char) : Option Int :=
  match cs with
  | [] => none
  | c :: rest =>
    if c.toNat = 45 then (leadingDigits rest).map (fun v => -(v : Int))
    else if c.toNat = 43 then (leadingDigits rest).map (fun v => (v : Int))
    else (leadingDigits (c :: rest)).map (fun v => (v : Int))

/-- Model of JS `parseInt(s)` on decimal input: skip whitespace, optional
sign, longest digit run; `none` models `NaN`. -/
def jsParseInt (s : String) : Option Int :=
  jsParseIntList (s.data.dropWhile jsWhitespace)

/-- Decimal digits of `n`, most significant first; structural recursion on a
fuel argument so the definition reduces in the kernel.  `fuel > n` always
suffices, since the recursive call divides `n` by 10. -/
def natDigitsAux (fuel : Nat) (n : Nat) : List Char :=
  match fuel with
  | 0 => []
  | fuel' + 1 =>
    if n < 10 then
      [Char.ofNat (48 + n)]
    else
      natDigitsAux fuel' (n / 10) ++ [Char.ofNat (48 + n % 10)]

/-- Decimal digits of `n`, most significant first. -/
def natDigits (n : Nat) : List Char :=
  natDigitsAux (n + 1) n

/-- Model of JS `n.toString()` for a natural number. -/
def jsNatToString (n : Nat) : String :=
  String.mk (natDigits n)

/-- The backing store: `unavailable` = every `localStorage` access throws;
`available v` = the furthest-level key holds `v` (`none` = absent). -/
inductive Store where
  | unavailable : Store
  | available : Option String → Store
deriving DecidableEq

/-- The source's `localStorage.getItem(key) || '1'`: JS `null` and the empty
string are falsy, so both fall back to the literal `'1'`. -/
def itemOrOne (v : Option String) : String :=
  match v with
  | none => "1"
  | some s => if s = "" then "1" else s

/-- `getFurthestLevel` (lines 218-224): `parseInt(getItem(...) || '1')`
inside try/catch returning 1.  The result is a JS number: `none` = `NaN`. -/
def getFurthestLevel (st : Store) : Option Int :=
  match st with
  | Store.unavailable => some 1
  | Store.available v => jsParseInt (itemOrOne v)

/-- `saveProgress` (lines 193-204): re-reads the furthest level with the same
`parseInt(getItem || '1')` expression and writes `currentLevel.toString()`
only when `currentLevel > furthestLevel`.  A `NaN` read (`none`) makes the
`>` comparison false, so nothing is written; a throwing store is caught. -/
def saveProgress (currentLevel : Nat) (st : Store) : Store :=
  match st with
  | Store.unavailable => Store.unavailable
  | Store.available v =>
    match jsParseInt (itemOrOne v) with
    | some furthest =>
      if (currentLevel : Int) > furthest then
        Store.available (some (jsNatToString currentLevel))
      else
        Store.available v
    | none => Store.available v

/-- The mutable session state: `LevelManager.currentLevel` together with the
external `localStorage` it reads and writes. -/
structure GameState where
  currentLevel : Nat
  store : Store

/-- `nextLevel` (lines 161-165): increment, persist, return the new level. -/
def nextLevel (s : GameState) : GameState × Nat :=
  let cur := s.currentLevel + 1
  ({ currentLevel := cur, store := saveProgress cur s.store }, cur)

/-- `resetToStart` (lines 170-173): back to level 1, no persistence call. -/
def resetToStart (s : GameState) : GameState :=
  { s with currentLevel := 1 }

/-- `setCurrentLevel` (lines 185-188): direct override, then persist. -/
def setCurrentLevel (level : Nat) (s : GameState) : GameState :=
  { currentLevel := level, store := saveProgress level s.store }

/-- `isBeastMode` (lines 257-259). -/
def isBeastMode (s : GameState) : Bool :=
  decide (s.currentLevel ≥ BEAST_MODE_LEVEL)

/-- `isLevelComplete` (lines 146-156): false in endless mode, else
`currentFloor ≥ floorCount` of the active level's config. -/
def isLevelComplete (E : EnemySpawningSystem) (s : GameState)
    (currentFloor : Int) : Bool :=
  let config := getLevelConfig E s.currentLevel
  if config.isEndless then false
  else decide (currentFloor ≥ config.floorCount)

/-- A concrete spawning-system instance used to instantiate witnesses. -/
def sampleESS : EnemySpawningSystem :=
  { getDifficultyBudget := fun configLevel floorNumber =>
      (configLevel : ℚ) + (floorNumber : ℚ)
    getSpawnWeights := fun _ _ => 1 }

/-! ### Helper lemmas about the decimal printer and parser -/

theorem charOfNat_digit_toNat (d : Nat) (hd : d < 10) :
    (Char.ofNat (48 + d)).toNat = 48 + d := by
  have key : ∀ e : Nat, e < 10 → (Char.ofNat (48 + e)).toNat = 48 + e := by decide
  exact key d hd

theorem isDigitChar_ofNat (d : Nat) (hd : d < 10) :
    isDigitChar (Char.ofNat (48 + d)) = true := by
  simp [isDigitChar, charOfNat_digit_toNat d hd]
  omega

theorem natDigitsAux_all_digit (fuel : Nat) :
    ∀ n : Nat, n < fuel → ∀ c ∈ natDigitsAux fuel n, isDigitChar c = true := by
  induction fuel with
  | zero => intro n hn; omega
  | succ fuel' ih =>
    intro n _ c hc
    rw [natDigitsAux] at hc
    by_cases h10 : n < 10
    · rw [if_pos h10] at hc
      simp only [List.mem_singleton] at hc
      subst hc
      exact isDigitChar_ofNat n h10
    · rw [if_neg h10] at hc
      rcases List.mem_append.mp hc with hmem | hmem
      · exact ih (n / 10) (by omega) c hmem
      · simp only [List.mem_singleton] at hmem
        subst hmem
        exact isDigitChar_ofNat (n % 10) (by omega)

theorem natDigitsAux_ne_nil (fuel n : Nat) (hn : n < fuel) :
    natDigitsAux fuel n ≠ [] := by
  cases fuel with
  | zero => omega
  | succ fuel' =>
    rw [natDigitsAux]
    by_cases h10 : n < 10
    · rw [if_pos h10]; simp
    · rw [if_neg h10]; simp

theorem digitsVal_append_digit (ds : List Char) (c : Char) :
    digitsVal (ds ++ [c]) = digitsVal ds * 10 + (c.toNat - 48) := by
  simp [digitsVal, List.foldl_append]

theorem digitsVal_natDigitsAux (fuel : Nat) :
    ∀ n : Nat, n < fuel → digitsVal (natDigitsAux fuel n) = n := by
  induction fuel with
  | zero => intro n hn; omega
  | succ fuel' ih =>
    intro n hn
    rw [natDigitsAux]
    by_cases h10 : n < 10
    · rw [if_pos h10]
      simp [digitsVal, charOfNat_digit_toNat n h10]
    · rw [if_neg h10]
      rw [digitsVal_append_digit, ih (n / 10) (by omega),
        charOfNat_digit_toNat (n % 10) (by omega)]
      omega

theorem natDigits_all_digit (n : Nat) :
    ∀ c ∈ natDigits n, isDigitChar c = true :=
  natDigitsAux_all_digit (n + 1) n (by omega)

theorem natDigits_ne_nil (n : Nat) : natDigits n ≠ [] :=
  natDigitsAux_ne_nil (n + 1) n (by omega)

theorem digitsVal_natDigits (n : Nat) : digitsVal (natDigits n) = n :=
  digitsVal_natDigitsAux (n + 1) n (by omega)

theorem takeWhile_of_all {p : Char → Bool} :
    ∀ l : List Char, (∀ c ∈ l, p c = true) → l.takeWhile p = l := by
  intro l hl
  induction l with
  | nil => rfl
  | cons c t ih =>
    rw [List.takeWhile_cons, hl c (by simp)]
    simp [ih (fun d hd => hl d (by simp [hd]))]

theorem isDigitChar_bounds (c : Char) (h : isDigitChar c = true) :
    48 ≤ c.toNat ∧ c.toNat ≤ 57 := by
  simp [isDigitChar] at h
  exact h

theorem jsParseInt_jsNatToString (n : Nat) :
    jsParseInt (jsNatToString n) = some (n : Int) := by
  obtain ⟨c, t, hct⟩ : ∃ c t, natDigits n = c :: t := by
    cases hd : natDigits n with
    | nil => exact absurd hd (natDigits_ne_nil n)
    | cons c t => exact ⟨c, t, rfl⟩
  have hall := natDigits_all_digit n
  have hc : isDigitChar c = true := hall c (by rw [hct]; simp)
  obtain ⟨hc48, hc57⟩ := isDigitChar_bounds c hc
  have hdata : (jsNatToString n).data = c :: t := by
    simp [jsNatToString, hct]
  have hws : jsWhitespace c = false := by
    simp [jsWhitespace]
    omega
  have hdrop : (jsNatToString n).data.dropWhile jsWhitespace = c :: t := by
    rw [hdata, List.dropWhile_cons, hws]
    simp
  have hstep : jsParseInt (jsNatToString n) = jsParseIntList (c :: t) := by
    rw [jsParseInt, hdrop]
  have htake : (c :: t).takeWhile isDigitChar = c :: t := by
    rw [← hct]
    exact takeWhile_of_all (natDigits n) hall
  have hld : leadingDigits (c :: t) = some n := by
    rw [leadingDigits, htake]
    simp only [List.isEmpty_cons, Bool.false_eq_true, if_false]
    rw [← hct, digitsVal_natDigits n]
  rw [hstep, jsParseIntList, if_neg (by omega), if_neg (by omega), hld]
  simp

theorem jsNatToString_ne_empty (n : Nat) : jsNatToString n ≠ "" := by
  intro h
  have : (jsNatToString n).data = [] := by rw [h]
  rw [jsNatToString] at this
  exact natDigits_ne_nil n this

theorem itemOrOne_jsNatToString (n : Nat) :
    itemOrOne (some (jsNatToString n)) = jsNatToString n := by
  rw [itemOrOne, if_neg (jsNatToString_ne_empty n)]

/-- Core behavior of `saveProgress` consumed by the persistence claims:
the persisted numeric value never decreases, and the store only changes
when `currentLevel` strictly exceeds the persisted value. -/
theorem saveProgress_spec (cur : Nat) (st : Store) (k k' : Int) :
    (getFurthestLevel st = some k →
      getFurthestLevel (saveProgress cur st) = some k' → k ≤ k') ∧
    (saveProgress cur st ≠ st →
      getFurthestLevel st = some k → k < (cur : Int)) := by
  cases st with
  | unavailable =>
    constructor
    · intro h1 h2
      simp [getFurthestLevel] at h1
      simp [saveProgress, getFurthestLevel] at h2
      omega
    · intro hne
      exact absurd rfl hne
  | available v =>
    cases hp : jsParseInt (itemOrOne v) with
    | none =>
      constructor
      · intro h1
        simp [getFurthestLevel, hp] at h1
      · intro _ h1
        simp [getFurthestLevel, hp] at h1
    | some furthest =>
      by_cases hgt : (cur : Int) > furthest
      · constructor
        · intro h1 h2
          simp [getFurthestLevel, hp] at h1
          rw [saveProgress] at h2
          simp only [hp, if_pos hgt] at h2
          rw [getFurthestLevel, itemOrOne_jsNatToString,
            jsParseInt_jsNatToString] at h2
          simp only [Option.some.injEq] at h2
          omega
        · intro _ h1
          simp [getFurthestLevel, hp] at h1
          omega
      · constructor
        · intro h1 h2
          rw [saveProgress] at h2
          simp only [hp, if_neg hgt] at h2
          simp [getFurthestLevel, hp] at h1 h2
          omega
        · intro hne _
          rw [saveProgress] at hne
          simp only [hp, if_neg hgt] at hne
          exact absurd rfl hne

/-! ### Claim theorems -/

/-- C1: for every `levelNumber ≥ 51`, `getLevelConfig` reports
`isEndless = true` and `floorCount = -1`, while every difficulty-derived
field (`difficultyBudgetPerFloor`, `enemySpawnWeights`, `worldWidth`,
`collectibleTypes`) equals the value computed for the capped configuration
level 50 — for every possible `EnemySpawningSystem` implementation. -/
theorem beastMode_config_capped_at_50 (E : EnemySpawningSystem) (n : Nat)
    (h : 51 ≤ n) :
    (getLevelConfig E n).isEndless = true ∧
    (getLevelConfig E n).floorCount = -1 ∧
    (getLevelConfig E n).difficultyBudgetPerFloor
      = (getLevelConfig E 50).difficultyBudgetPerFloor ∧
    (getLevelConfig E n).enemySpawnWeights
      = (getLevelConfig E 50).enemySpawnWeights ∧
    (getLevelConfig E n).worldWidth = (getLevelConfig E 50).worldWidth ∧
    (getLevelConfig E n).collectibleTypes
      = (getLevelConfig E 50).collectibleTypes := by
  have h1 : min n MAX_PROGRESSION_LEVEL = min 50 MAX_PROGRESSION_LEVEL := by
    rw [MAX_PROGRESSION_LEVEL]
    omega
  refine ⟨?_, ?_, by simp [getLevelConfig, h1], by simp [getLevelConfig, h1],
    by simp [getLevelConfig, h1], by simp [getLevelConfig, h1]⟩
  · simp [getLevelConfig, BEAST_MODE_LEVEL]
    omega
  · simp only [getLevelConfig]
    rw [calculateFloorCount,
      if_pos (show n ≥ BEAST_MODE_LEVEL by rw [BEAST_MODE_LEVEL]; omega)]

/-- C1 witness: the capping theorem instantiated at level 51 with a concrete
spawning system. -/
theorem beastMode_config_capped_at_50_witness :
    (getLevelConfig sampleESS 51).isEndless = true ∧
    (getLevelConfig sampleESS 51).floorCount = -1 ∧
    (getLevelConfig sampleESS 51).difficultyBudgetPerFloor
      = (getLevelConfig sampleESS 50).difficultyBudgetPerFloor ∧
    (getLevelConfig sampleESS 51).enemySpawnWeights
      = (getLevelConfig sampleESS 50).enemySpawnWeights ∧
    (getLevelConfig sampleESS 51).worldWidth
      = (getLevelConfig sampleESS 50).worldWidth ∧
    (getLevelConfig sampleESS 51).collectibleTypes
      = (getLevelConfig sampleESS 50).collectibleTypes :=
  beastMode_config_capped_at_50 sampleESS 51 (by omega)

/-- C2: for every level 1..50 the floor count lies in the documented range of
its phase (1-10: 10-12, 11-25: 13-18, 26-40: 19-25, 41-50: 25-30) and is
non-decreasing from one level to the next within each phase. -/
theorem floorCount_phase_ranges (n : Nat) (hlo : 1 ≤ n) (hhi : n ≤ 50) :
    (n ≤ 10 → 10 ≤ calculateFloorCount n ∧ calculateFloorCount n ≤ 12) ∧
    (11 ≤ n → n ≤ 25 → 13 ≤ calculateFloorCount n ∧ calculateFloorCount n ≤ 18) ∧
    (26 ≤ n → n ≤ 40 → 19 ≤ calculateFloorCount n ∧ calculateFloorCount n ≤ 25) ∧
    (41 ≤ n → 25 ≤ calculateFloorCount n ∧ calculateFloorCount n ≤ 30) ∧
    (n + 1 ≤ 10 → calculateFloorCount n ≤ calculateFloorCount (n + 1)) ∧
    (11 ≤ n → n + 1 ≤ 25 → calculateFloorCount n ≤ calculateFloorCount (n + 1)) ∧
    (26 ≤ n → n + 1 ≤ 40 → calculateFloorCount n ≤ calculateFloorCount (n + 1)) ∧
    (41 ≤ n → n + 1 ≤ 50 → calculateFloorCount n ≤ calculateFloorCount (n + 1)) := by
  have key1 : ∀ m : Nat, m < 50 →
      (m + 1 ≤ 10 →
        10 ≤ calculateFloorCount (m + 1) ∧ calculateFloorCount (m + 1) ≤ 12) ∧
      (11 ≤ m + 1 → m + 1 ≤ 25 →
        13 ≤ calculateFloorCount (m + 1) ∧ calculateFloorCount (m + 1) ≤ 18) ∧
      (26 ≤ m + 1 → m + 1 ≤ 40 →
        19 ≤ calculateFloorCount (m + 1) ∧ calculateFloorCount (m + 1) ≤ 25) ∧
      (41 ≤ m + 1 →
        25 ≤ calculateFloorCount (m + 1) ∧ calculateFloorCount (m + 1) ≤ 30) := by
    decide
  have key2 : ∀ m : Nat, m < 50 →
      (m + 1 + 1 ≤ 10 →
        calculateFloorCount (m + 1) ≤ calculateFloorCount (m + 1 + 1)) ∧
      (11 ≤ m + 1 → m + 1 + 1 ≤ 25 →
        calculateFloorCount (m + 1) ≤ calculateFloorCount (m + 1 + 1)) ∧
      (26 ≤ m + 1 → m + 1 + 1 ≤ 40 →
        calculateFloorCount (m + 1) ≤ calculateFloorCount (m + 1 + 1)) ∧
      (41 ≤ m + 1 → m + 1 + 1 ≤ 50 →
        calculateFloorCount (m + 1) ≤ calculateFloorCount (m + 1 + 1)) := by
    decide
  have h2 := key1 (n - 1) (by omega)
  have h4 := key2 (n - 1) (by omega)
  have h3 : n - 1 + 1 = n := by omega
  rw [h3] at h2 h4
  exact ⟨h2.1, h2.2.1, h2.2.2.1, h2.2.2.2, h4.1, h4.2.1, h4.2.2.1, h4.2.2.2⟩

/-- C2 witness: level 1 sits in the tutorial range. -/
theorem floorCount_phase_ranges_witness :
    10 ≤ calculateFloorCount 1 ∧ calculateFloorCount 1 ≤ 12 :=
  (floorCount_phase_ranges 1 (by omega) (by omega)).1 (by omega)

/-- C10: the floor-count curve is globally non-decreasing over levels 1..50,
including across the phase boundaries. -/
theorem floorCount_monotone_global (a b : Nat) (ha : 1 ≤ a) (hab : a ≤ b)
    (hb : b ≤ 50) : calculateFloorCount a ≤ calculateFloorCount b := by
  have key : ∀ x : Nat, x < 50 → ∀ y : Nat, y < 50 → x ≤ y →
      calculateFloorCount (x + 1) ≤ calculateFloorCount (y + 1) := by
    decide
  have h2 := key (a - 1) (by omega) (b - 1) (by omega) (by omega)
  have ha1 : a - 1 + 1 = a := by omega
  have hb1 : b - 1 + 1 = b := by omega
  rw [ha1, hb1] at h2
  exact h2

/-- C10 witness: the curve does not drop across the 25 → 26 phase boundary. -/
theorem floorCount_monotone_global_witness :
    calculateFloorCount 25 ≤ calculateFloorCount 26 :=
  floorCount_monotone_global 25 26 (by omega) (by omega) (by omega)

/-- C6: `worldWidth` is a step function of the capped configuration level:
24 tiles below level 25, 32 tiles from 25 to below 50, 40 tiles at or above
50; with the four documented sample points. -/
theorem worldWidth_step (E : EnemySpawningSystem) (n : Nat) :
    (n < 25 → (getLevelConfig E n).worldWidth = 24) ∧
    (25 ≤ n → n < 50 → (getLevelConfig E n).worldWidth = 32) ∧
    (50 ≤ n → (getLevelConfig E n).worldWidth = 40) ∧
    (getLevelConfig E 24).worldWidth = 24 ∧
    (getLevelConfig E 25).worldWidth = 32 ∧
    (getLevelConfig E 49).worldWidth = 32 ∧
    (getLevelConfig E 50).worldWidth = 40 := by
  have hw : ∀ m : Nat,
      (getLevelConfig E m).worldWidth = getWorldWidth (min m MAX_PROGRESSION_LEVEL) :=
    fun m => rfl
  refine ⟨?_, ?_, ?_, rfl, rfl, rfl, rfl⟩
  · intro h
    have hm : min n MAX_PROGRESSION_LEVEL = n := by
      rw [MAX_PROGRESSION_LEVEL]; omega
    rw [hw, hm, getWorldWidth, if_pos h]
  · intro h25 h50
    have hm : min n MAX_PROGRESSION_LEVEL = n := by
      rw [MAX_PROGRESSION_LEVEL]; omega
    rw [hw, hm, getWorldWidth, if_neg (by omega), if_pos h50]
  · intro h
    have hm : min n MAX_PROGRESSION_LEVEL = 50 := by
      rw [MAX_PROGRESSION_LEVEL]; omega
    rw [hw, hm]
    decide

/-- C6 witness: the step function evaluated inside each step. -/
theorem worldWidth_step_witness :
    (getLevelConfig sampleESS 10).worldWidth = 24 ∧
    (getLevelConfig sampleESS 30).worldWidth = 32 ∧
    (getLevelConfig sampleESS 60).worldWidth = 40 :=
  ⟨(worldWidth_step sampleESS 10).1 (by omega),
   (worldWidth_step sampleESS 30).2.1 (by omega) (by omega),
   (worldWidth_step sampleESS 60).2.2.1 (by omega)⟩

/-- C8: `resetToStart` sets the current level to 1 and leaves the persisted
furthest-level value untouched, whatever the prior state. -/
theorem resetToStart_preserves_furthest (s : GameState) :
    (resetToStart s).currentLevel = 1 ∧
    getFurthestLevel (resetToStart s).store = getFurthestLevel s.store :=
  ⟨rfl, rfl⟩

/-- C9: `isLevelComplete` is false unconditionally when the active level is
endless (≥ 51), and otherwise true exactly when the current floor reaches the
active level's floor count. -/
theorem isLevelComplete_spec (E : EnemySpawningSystem) (s : GameState)
    (f : Int) :
    (51 ≤ s.currentLevel → isLevelComplete E s f = false) ∧
    (s.currentLevel < 51 →
      (isLevelComplete E s f = true ↔
        (getLevelConfig E s.currentLevel).floorCount ≤ f)) := by
  constructor
  · intro h
    have he : (getLevelConfig E s.currentLevel).isEndless = true := by
      simp [getLevelConfig, BEAST_MODE_LEVEL]
      omega
    simp [isLevelComplete, he]
  · intro h
    have he : (getLevelConfig E s.currentLevel).isEndless = false := by
      simp [getLevelConfig, BEAST_MODE_LEVEL]
      omega
    simp [isLevelComplete, he, ge_iff_le]

/-- C9 witness: endless at level 51 never completes; level 10 completes at
its top floor (12). -/
theorem isLevelComplete_spec_witness :
    isLevelComplete sampleESS (GameState.mk 51 (Store.available none)) 3 = false ∧
    isLevelComplete sampleESS (GameState.mk 10 (Store.available none)) 12 = true :=
  ⟨(isLevelComplete_spec sampleESS (GameState.mk 51 (Store.available none)) 3).1
      (by decide),
   ((isLevelComplete_spec sampleESS (GameState.mk 10 (Store.available none)) 12).2
      (by decide)).mpr (by decide)⟩

/-- Unfolding lemma: the cost of a selected sequence is the head cost plus
the rest. -/
theorem totalCost_cons (cost : EnemyType → ℚ) (k : EnemyType)
    (l : List EnemyType) : totalCost cost (k :: l) = cost k + totalCost cost l :=
  rfl

/-- C3: for every nonnegative budget, every config level, every positive
per-kind cost assignment and every draw stream, `selectEnemies` (a total
function, hence terminating) returns a sequence whose summed cost does not
exceed the budget, and returns the empty sequence when the budget is 0. -/
theorem selectEnemies_respects_budget (cost : EnemyType → ℚ) (budget : ℚ)
    (configLevel : Nat) (draws : List EnemyType)
    (hcost : ∀ k, 0 < cost k) (hb : 0 ≤ budget) :
    totalCost cost (selectEnemies cost budget configLevel draws) ≤ budget ∧
    (budget = 0 → selectEnemies cost budget configLevel draws = []) := by
  induction draws generalizing budget with
  | nil =>
    constructor
    · simpa [selectEnemies, totalCost] using hb
    · intro _
      rfl
  | cons d ds ih =>
    rw [selectEnemies]
    by_cases hstop : allEnemyKinds.all (fun k => decide (budget < cost k)) = true
    · rw [if_pos hstop]
      exact ⟨by simpa [totalCost] using hb, fun _ => rfl⟩
    · rw [if_neg hstop]
      by_cases hd : cost d ≤ budget
      · rw [if_pos hd]
        have hrec := ih (budget - cost d) (by linarith)
        constructor
        · rw [totalCost_cons]
          linarith [hrec.1]
        · intro h0
          exfalso
          have := hcost d
          rw [h0] at hd
          linarith
      · rw [if_neg hd]
        have hrec := ih budget hb
        exact ⟨hrec.1, fun h0 => hrec.2 h0⟩

/-- C3 witness: unit costs, budget 2, three draws — at most 2 enemies are
selected and the zero-budget clause is vacuous at budget 2. -/
theorem selectEnemies_respects_budget_witness :
    totalCost (fun _ => (1 : ℚ))
        (selectEnemies (fun _ => (1 : ℚ)) 2 50
          [EnemyType.blue, EnemyType.red, EnemyType.green]) ≤ 2 ∧
    ((2 : ℚ) = 0 →
      selectEnemies (fun _ => (1 : ℚ)) 2 50
        [EnemyType.blue, EnemyType.red, EnemyType.green] = []) :=
  selectEnemies_respects_budget (fun _ => (1 : ℚ)) 2 50
    [EnemyType.blue, EnemyType.red, EnemyType.green]
    (fun _ => by norm_num) (by norm_num)

/-- Monotonicity of the collectible tiers in the source: a higher level's
list contains every entry of a lower level's. -/
theorem getCollectibleTypes_mono (x y : Nat) (hxy : x ≤ y) :
    getCollectibleTypes x ⊆ getCollectibleTypes y := by
  unfold getCollectibleTypes
  split_ifs <;> first
    | (intro a ha; exact ha)
    | (exfalso; omega)
    | decide

/-- C4 counterexample: the claim says treasure chests appear only at levels
above 6 (and pendants only from their introducing tier), but the source adds
both to the level-1 palette ("for testing"). -/
theorem collectibles_present_before_tier :
    "treasureChest" ∈ (getLevelConfig sampleESS 1).collectibleTypes ∧
    "invincibilityPendant" ∈ (getLevelConfig sampleESS 1).collectibleTypes := by
  decide

/-- The exact tier values of `getCollectibleTypes`: the `≤ 2`, `= 3` and
`≥ 4` regions each return a fixed list, the last one covering both the
source's `≤ 6` branch and its `> 6` branch, which return identical lists. -/
theorem getCollectibleTypes_eq (x : Nat) :
    (x ≤ 2 → getCollectibleTypes x
      = ["coin", "treasureChest", "invincibilityPendant"]) ∧
    (x = 3 → getCollectibleTypes x
      = ["coin", "blueCoin", "treasureChest", "invincibilityPendant"]) ∧
    (4 ≤ x → getCollectibleTypes x
      = ["coin", "blueCoin", "diamond", "freeLife", "invincibilityPendant",
         "treasureChest"]) := by
  unfold getCollectibleTypes
  refine ⟨?_, ?_, ?_⟩ <;> intro h <;> split_ifs <;> first | rfl | omega

/-- C4 (amended): the collectible palette is a step function of the capped
level with thresholds at 2, 3 and 6 — each tier is the literal list of the
source, the `≤ 6` and `> 6` tiers being identical — whose tiers are
cumulative: every lower-tier entry persists at higher levels, so the palette
is superset-monotone in the level (and level 7 ⊇ level 3 ⊇ level 1); but
treasure chests and invincibility pendants are present from level 1 onward. -/
theorem collectibles_monotone_superset (E : EnemySpawningSystem) (a b : Nat)
    (hab : a ≤ b) :
    (getLevelConfig E a).collectibleTypes ⊆ (getLevelConfig E b).collectibleTypes ∧
    "treasureChest" ∈ (getLevelConfig E a).collectibleTypes ∧
    "invincibilityPendant" ∈ (getLevelConfig E a).collectibleTypes ∧
    (getLevelConfig E 1).collectibleTypes ⊆ (getLevelConfig E 3).collectibleTypes ∧
    (getLevelConfig E 3).collectibleTypes ⊆ (getLevelConfig E 7).collectibleTypes ∧
    (a ≤ 2 → (getLevelConfig E a).collectibleTypes
      = ["coin", "treasureChest", "invincibilityPendant"]) ∧
    (a = 3 → (getLevelConfig E a).collectibleTypes
      = ["coin", "blueCoin", "treasureChest", "invincibilityPendant"]) ∧
    (4 ≤ a → a ≤ 6 → (getLevelConfig E a).collectibleTypes
      = ["coin", "blueCoin", "diamond", "freeLife", "invincibilityPendant",
         "treasureChest"]) ∧
    (7 ≤ a → (getLevelConfig E a).collectibleTypes
      = ["coin", "blueCoin", "diamond", "freeLife", "invincibilityPendant",
         "treasureChest"]) := by
  have hc : ∀ m : Nat,
      (getLevelConfig E m).collectibleTypes
        = getCollectibleTypes (min m MAX_PROGRESSION_LEVEL) :=
    fun m => rfl
  have hchest : ∀ x : Nat, "treasureChest" ∈ getCollectibleTypes x := by
    intro x
    unfold getCollectibleTypes
    split_ifs <;> decide
  have hpend : ∀ x : Nat, "invincibilityPendant" ∈ getCollectibleTypes x := by
    intro x
    unfold getCollectibleTypes
    split_ifs <;> decide
  refine ⟨?_, ?_, ?_, ?_, ?_, ?_, ?_, ?_, ?_⟩
  · rw [hc, hc]
    exact getCollectibleTypes_mono _ _ (by omega)
  · rw [hc]
    exact hchest _
  · rw [hc]
    exact hpend _
  · rw [hc, hc]
    exact getCollectibleTypes_mono _ _ (by omega)
  · rw [hc, hc]
    exact getCollectibleTypes_mono _ _ (by omega)
  · intro h
    rw [hc]
    exact (getCollectibleTypes_eq _).1 (by omega)
  · intro h
    rw [hc]
    exact (getCollectibleTypes_eq _).2.1 (by rw [MAX_PROGRESSION_LEVEL]; omega)
  · intro h4 h6
    rw [hc]
    exact (getCollectibleTypes_eq _).2.2 (by rw [MAX_PROGRESSION_LEVEL]; omega)
  · intro h
    rw [hc]
    exact (getCollectibleTypes_eq _).2.2 (by rw [MAX_PROGRESSION_LEVEL]; omega)

/-- C4 witness: the amended theorem applied between levels 3 and 7; the
level-3 tier clause fires, the others hold vacuously or concretely. -/
theorem collectibles_monotone_superset_witness :
    (getLevelConfig sampleESS 3).collectibleTypes
      ⊆ (getLevelConfig sampleESS 7).collectibleTypes ∧
    "treasureChest" ∈ (getLevelConfig sampleESS 3).collectibleTypes ∧
    "invincibilityPendant" ∈ (getLevelConfig sampleESS 3).collectibleTypes ∧
    (getLevelConfig sampleESS 1).collectibleTypes
      ⊆ (getLevelConfig sampleESS 3).collectibleTypes ∧
    (getLevelConfig sampleESS 3).collectibleTypes
      ⊆ (getLevelConfig sampleESS 7).collectibleTypes ∧
    ((3 : Nat) ≤ 2 → (getLevelConfig sampleESS 3).collectibleTypes
      = ["coin", "treasureChest", "invincibilityPendant"]) ∧
    ((3 : Nat) = 3 → (getLevelConfig sampleESS 3).collectibleTypes
      = ["coin", "blueCoin", "treasureChest", "invincibilityPendant"]) ∧
    ((4 : Nat) ≤ 3 → (3 : Nat) ≤ 6 → (getLevelConfig sampleESS 3).collectibleTypes
      = ["coin", "blueCoin", "diamond", "freeLife", "invincibilityPendant",
         "treasureChest"]) ∧
    ((7 : Nat) ≤ 3 → (getLevelConfig sampleESS 3).collectibleTypes
      = ["coin", "blueCoin", "diamond", "freeLife", "invincibilityPendant",
         "treasureChest"]) :=
  collectibles_monotone_superset sampleESS 3 7 (by omega)

/-- C5 counterexample: a corrupt (non-numeric) persisted value makes
`getFurthestLevel` return `parseInt("x") = NaN` (modelled as `none`), not
the default 1 the claim requires. -/
theorem getFurthestLevel_corrupt_nan :
    getFurthestLevel (Store.available (some "x")) = none ∧
    getFurthestLevel (Store.available (some "x")) ≠ some 1 := by
  decide

/-- C5 (amended): `getFurthestLevel` never throws (it is a total function of
the store); it returns 1 when no persisted value exists, when the stored
string is empty, or when the store is unreadable, and for every non-empty
stored string it returns exactly what `parseInt` yields — the stored number
when the value parses, but `NaN` (`none`), not 1, when the value is corrupt
(non-numeric). -/
theorem getFurthestLevel_defaults :
    getFurthestLevel Store.unavailable = some 1 ∧
    getFurthestLevel (Store.available none) = some 1 ∧
    getFurthestLevel (Store.available (some "")) = some 1 ∧
    (∀ (s : String) (k : Int), s ≠ "" → jsParseInt s = some k →
      getFurthestLevel (Store.available (some s)) = some k) ∧
    (∀ s : String, s ≠ "" → jsParseInt s = none →
      getFurthestLevel (Store.available (some s)) = none) := by
  refine ⟨by decide, by decide, by decide, ?_, ?_⟩
  · intro s k hs hp
    rw [getFurthestLevel, itemOrOne, if_neg hs]
    exact hp
  · intro s hs hp
    rw [getFurthestLevel, itemOrOne, if_neg hs]
    exact hp

/-- C5 witness: the amended theorem's quantified clauses applied to the
parsing value "7" and the corrupt value "x". -/
theorem getFurthestLevel_defaults_witness :
    getFurthestLevel (Store.available (some "7")) = some 7 ∧
    getFurthestLevel (Store.available (some "x")) = none :=
  ⟨getFurthestLevel_defaults.2.2.2.1 "7" 7 (by decide) (by decide),
   getFurthestLevel_defaults.2.2.2.2 "x" (by decide) (by decide)⟩

/-- C7: the persisted furthest level is monotonically non-decreasing across
every operation: `nextLevel` and `setCurrentLevel` never lower the stored
numeric value and change the store only when the new current level strictly
exceeds it, and `resetToStart` does not touch the store at all. -/
theorem furthestLevel_never_decreases (s : GameState) (l : Nat) (k k' : Int) :
    (getFurthestLevel s.store = some k →
      getFurthestLevel (nextLevel s).1.store = some k' → k ≤ k') ∧
    (getFurthestLevel s.store = some k →
      getFurthestLevel (setCurrentLevel l s).store = some k' → k ≤ k') ∧
    ((nextLevel s).1.store ≠ s.store →
      getFurthestLevel s.store = some k →
      k < ((s.currentLevel + 1 : Nat) : Int)) ∧
    ((setCurrentLevel l s).store ≠ s.store →
      getFurthestLevel s.store = some k → k < (l : Int)) ∧
    (resetToStart s).store = s.store :=
  ⟨(saveProgress_spec (s.currentLevel + 1) s.store k k').1,
   (saveProgress_spec l s.store k k').1,
   (saveProgress_spec (s.currentLevel + 1) s.store k k).2,
   (saveProgress_spec l s.store k k).2,
   rfl⟩

/-- C7 witness: from level 1 with an empty store, `nextLevel` persists 2 and
the stored value 1 does not decrease. -/
theorem furthestLevel_never_decreases_witness :
    getFurthestLevel (GameState.mk 1 (Store.available none)).store = some 1 ∧
    getFurthestLevel
      (nextLevel (GameState.mk 1 (Store.available none))).1.store = some 2 ∧
    (1 : Int) ≤ 2 :=
  ⟨by decide, by decide,
   (furthestLevel_never_decreases (GameState.mk 1 (Store.available none)) 0 1 2).1
     (by decide) (by decide)⟩

end TreasureQuest
